import Mathlib

/-!
Verification of the request-construction layer of the `ferinth` client library.

The resource-call layer (`src/api_calls/user.rs`, `src/api_calls/version.rs`)
is embedded as pure functions from the call arguments to
`Except Error Request`: the outbound request the call would hand to the
dispatcher, or the error it returns before any dispatch happens.  A result of
`Except.error e` means the call returns `e` and no request is ever dispatched;
a result of `Except.ok r` means exactly one request `r` is dispatched.
The `Request` value records the method, the ordered path-segment list handed
to the path builder (`API_URL_BASE.join_all`), the query-parameter pairs
handed to `get_with_query` (empty for plain `get`), and the optional
structured JSON body handed to `post`.  Headers and the transport are outside
the properties considered here.
-/

namespace Ferinth

/-- Modelled from the spec: the crate error type lives in `src/lib.rs`, which
is not among the provided sources.  The spec's error taxonomy (§7) lists the
locally produced errors relevant to request construction:
`InvalidIdentifier`, carrying the offending string, and `SerializationError`,
carrying the underlying encoder message. -/
inductive Error where
  | invalidIdentifier (offending : String)
  | serializationError (msg : String)
  deriving DecidableEq

/-- HTTP method of an outbound request; the call layer uses only GET and
POST. -/
inductive Method where
  | GET
  | POST
  deriving DecidableEq

/-- The materialized outbound request (spec §3 "Outbound Request"), up to the
point where the dispatcher takes over: method, ordered path segments as
passed to `API_URL_BASE.join_all`, query pairs as passed to
`get_with_query` (`[]` for plain `get`), and the structured body passed to
`post` as an ordered field list (`none` for GET calls). -/
structure Request where
  method : Method
  path : List String
  query : List (String × String)
  body : Option (List (String × String))
  deriving DecidableEq

/-- Decidable equality of `Except` results, so that concrete runs of the
embedded calls can be checked by `decide`. -/
instance {ε α : Type} [DecidableEq ε] [DecidableEq α] : DecidableEq (Except ε α) :=
  fun x y =>
    match x, y with
    | Except.ok a, Except.ok b =>
      if h : a = b then Decidable.isTrue (by rw [h])
      else Decidable.isFalse (by intro hc; injection hc; contradiction)
    | Except.error a, Except.error b =>
      if h : a = b then Decidable.isTrue (by rw [h])
      else Decidable.isFalse (by intro hc; injection hc; contradiction)
    | Except.ok _, Except.error _ => Decidable.isFalse (by intro hc; injection hc)
    | Except.error _, Except.ok _ => Decidable.isFalse (by intro hc; injection hc)

/-- Lower-case hexadecimal digit, used for JSON control-character escapes. -/
def hexDigit (n : Nat) : Char :=
  if n < 10 then Char.ofNat (48 + n) else Char.ofNat (87 + n)

/-- JSON escape of a single character, as `serde_json` writes it: `"` and `\`
are backslash-escaped, the control characters BS, TAB, LF, FF, CR use their
short escapes, the other control characters use `\u00XX`, and every other
character (including non-ASCII) is written as itself. -/
def jsonEscapeChar (c : Char) : String :=
  if c = '"' then "\\\""
  else if c = '\\' then "\\\\"
  else if c.toNat = 8 then "\\b"
  else if c.toNat = 9 then "\\t"
  else if c.toNat = 10 then "\\n"
  else if c.toNat = 12 then "\\f"
  else if c.toNat = 13 then "\\r"
  else if c.toNat < 32 then
    "\\u00" ++ String.singleton (hexDigit (c.toNat / 16)) ++
      String.singleton (hexDigit (c.toNat % 16))
  else String.singleton c

/-- The compact JSON text of a string, as `serde_json::to_string` produces
for a `&str`: surrounding quotes around the escaped characters. -/
def jsonString (s : String) : String :=
  "\"" ++ String.join (s.data.map jsonEscapeChar) ++ "\""

/-- The compact JSON text of a string list, as `serde_json::to_string`
produces for a `&[&str]`: elements in order, comma-separated, no spaces. -/
def to_string_strList (l : List String) : String :=
  "[" ++ String.intercalate "," (l.map jsonString) ++ "]"

/-- The compact JSON text of a boolean, as `serde_json::to_string` produces
for a `bool`. -/
def to_string_bool (b : Bool) : String :=
  if b then "true" else "false"

/-- A value serializer, abstracting `serde_json::to_string` at the two types
the call layer serializes into query values (string slices and booleans).
`serde_json::to_string` has a fallible type (hence the `?` operators in the
source); the call layer is embedded parametrically in the serializer so that
the propagation of a serialization failure is a provable property rather
than a vacuous one. -/
structure Serializer where
  strList : List String → Except String String
  bool : Bool → Except String String

/-- The actual `serde_json` behaviour on the values this call layer
serializes: total, producing the compact JSON text. -/
def serdeJson : Serializer :=
  ⟨fun l => Except.ok (to_string_strList l), fun b => Except.ok (to_string_bool b)⟩

/-- A serializer that always fails, exercising the error-propagation paths. -/
def failingSerializer : Serializer :=
  ⟨fun _ => Except.error "strList failure", fun _ => Except.error "bool failure"⟩

/-- Modelled from the spec: `check_id_slug` lives in `src/api_calls/mod.rs`,
which is not among the provided sources.  Spec §4.1: accepts if non-empty and
every character is alphanumeric or one of the small allowed punctuation set
(§3: underscore, hyphen, period); rejects otherwise with an
`InvalidIdentifier` error carrying the offending string. -/
def allowedIdChar (c : Char) : Bool :=
  c.isAlphanum || c = '_' || c = '-' || c = '.'

/-- Modelled from the spec: the identifier validator (spec §4.1), see
`allowedIdChar`. -/
def check_id_slug (s : String) : Except Error Unit :=
  if s.isEmpty then Except.error (Error.invalidIdentifier s)
  else if s.data.all allowedIdChar then Except.ok ()
  else Except.error (Error.invalidIdentifier s)

/-- The batch-validation loop `for id in ids { check_id_slug(id)?; }` used by
`get_multiple_users` and `get_multiple_versions`: checks identifiers in input
order and short-circuits on the first failure. -/
def validateAll : List String → Except Error Unit
  | [] => Except.ok ()
  | id :: rest => (check_id_slug id).bind fun _ => validateAll rest

/-- One `if let Some(v) = filter { query.push((name, serde_json::to_string(v)?)) }`
step of `list_versions_filtered`: an absent filter leaves the query
untouched, a present one appends its serialized value under `name`, and a
serialization failure aborts with `SerializationError`. -/
def pushFilter {α : Type} (enc : α → Except String String) (name : String)
    (v : Option α) (q : List (String × String)) :
    Except Error (List (String × String)) :=
  match v with
  | none => Except.ok q
  | some x =>
    match enc x with
    | Except.ok s => Except.ok (q ++ [(name, s)])
    | Except.error e => Except.error (Error.serializationError e)

/-- `Ferinth::get_user` (src/api_calls/user.rs): validate, then GET
`/user/{user_id}`. -/
def get_user (user_id : String) : Except Error Request :=
  (check_id_slug user_id).bind fun _ =>
    Except.ok ⟨Method.GET, ["user", user_id], [], none⟩

/-- `Ferinth::get_current_user` (src/api_calls/user.rs): GET `/user`, no
identifier argument, no validation. -/
def get_current_user : Except Error Request :=
  Except.ok ⟨Method.GET, ["user"], [], none⟩

/-- `Ferinth::get_multiple_users` (src/api_calls/user.rs): validate every
identifier in order, then GET `/users` with the single query parameter
`ids` holding the JSON array text of the identifier list. -/
def get_multiple_users (ser : Serializer) (user_ids : List String) :
    Except Error Request :=
  (validateAll user_ids).bind fun _ =>
    match ser.strList user_ids with
    | Except.ok s => Except.ok ⟨Method.GET, ["users"], [("ids", s)], none⟩
    | Except.error e => Except.error (Error.serializationError e)

/-- `Ferinth::list_projects` (src/api_calls/user.rs): validate, then GET
`/user/{user_id}/projects`. -/
def list_projects (user_id : String) : Except Error Request :=
  (check_id_slug user_id).bind fun _ =>
    Except.ok ⟨Method.GET, ["user", user_id, "projects"], [], none⟩

/-- `Ferinth::get_notifications` (src/api_calls/user.rs): validate, then GET
`/user/{user_id}/notifications`. -/
def get_notifications (user_id : String) : Except Error Request :=
  (check_id_slug user_id).bind fun _ =>
    Except.ok ⟨Method.GET, ["user", user_id, "notifications"], [], none⟩

/-- `Ferinth::followed_projects` (src/api_calls/user.rs): validate, then GET
`/user/{user_id}/follows`. -/
def followed_projects (user_id : String) : Except Error Request :=
  (check_id_slug user_id).bind fun _ =>
    Except.ok ⟨Method.GET, ["user", user_id, "follows"], [], none⟩

/-- `Ferinth::submit_report` (src/api_calls/user.rs): validate the item
identifier, then POST `/report` with the report fields as the JSON body
(modelled structurally, field order as in `ReportSubmission`). -/
def submit_report (report_type item_id item_type body : String) :
    Except Error Request :=
  (check_id_slug item_id).bind fun _ =>
    Except.ok ⟨Method.POST, ["report"],
      [],
      some [("report_type", report_type), ("item_id", item_id),
        ("item_type", item_type), ("body", body)]⟩

/-- `Ferinth::list_versions` (src/api_calls/version.rs): validate, then GET
`/project/{project_id}/version`. -/
def list_versions (project_id : String) : Except Error Request :=
  (check_id_slug project_id).bind fun _ =>
    Except.ok ⟨Method.GET, ["project", project_id, "version"], [], none⟩

/-- `Ferinth::list_versions_filtered` (src/api_calls/version.rs): validate,
then build the query by pushing each present filter in declaration order
(`loaders`, `game_versions`, `featured`), serializing list and boolean
values to JSON text, and GET `/project/{project_id}/version` with that
query.  (The source's trailing `.map(|this| (this.0, this.1)).collect()` is
the identity on the pair list and is not represented separately.) -/
def list_versions_filtered (ser : Serializer) (project_id : String)
    (loaders game_versions : Option (List String)) (featured : Option Bool) :
    Except Error Request :=
  (check_id_slug project_id).bind fun _ =>
    (pushFilter ser.strList "loaders" loaders []).bind fun q1 =>
      (pushFilter ser.strList "game_versions" game_versions q1).bind fun q2 =>
        (pushFilter ser.bool "featured" featured q2).bind fun q3 =>
          Except.ok ⟨Method.GET, ["project", project_id, "version"], q3, none⟩

/-- `Ferinth::get_version` (src/api_calls/version.rs): validate, then GET
`/version/{version_id}`. -/
def get_version (version_id : String) : Except Error Request :=
  (check_id_slug version_id).bind fun _ =>
    Except.ok ⟨Method.GET, ["version", version_id], [], none⟩

/-- `Ferinth::get_multiple_versions` (src/api_calls/version.rs): validate
every identifier in order, then GET `/versions` with the single query
parameter `ids` holding the JSON array text of the identifier list. -/
def get_multiple_versions (ser : Serializer) (version_ids : List String) :
    Except Error Request :=
  (validateAll version_ids).bind fun _ =>
    match ser.strList version_ids with
    | Except.ok s => Except.ok ⟨Method.GET, ["versions"], [("ids", s)], none⟩
    | Except.error e => Except.error (Error.serializationError e)

/-- The route grammar named by the spec (§1, §3): a path of the form
`/collection/{id}` or `/collection/{id}/{subcollection}`, i.e. exactly two
or exactly three segments. -/
def matchesFixedRouteGrammar (segs : List String) : Prop :=
  segs.length = 2 ∨ segs.length = 3

/-- The route grammar extended with bare single-collection routes
(`/collection`), which the call layer also uses (`/user`, `/users`,
`/versions`, `/report`). -/
def matchesRouteGrammarWithBare (segs : List String) : Prop :=
  segs.length = 1 ∨ matchesFixedRouteGrammar segs

/-- `segs` is a two- or three-segment route whose second segment is exactly
the caller-supplied identifier `id` (one whole segment, not concatenated
into a neighbour). -/
def wholeSegmentRoute (id : String) (segs : List String) : Prop :=
  (∃ c, segs = [c, id]) ∨ (∃ c s, segs = [c, id, s])

theorem check_id_slug_ok_iff (s : String) :
    check_id_slug s = Except.ok () ↔ (¬ s.isEmpty ∧ ∀ c ∈ s.data, allowedIdChar c) := by
  rw [show (¬ s.isEmpty ∧ ∀ c ∈ s.data, allowedIdChar c) ↔
      (s.isEmpty = false ∧ s.data.all allowedIdChar = true) by
    simp [List.all_eq_true, Bool.not_eq_true]]
  unfold check_id_slug
  by_cases h1 : s.isEmpty <;> by_cases h2 : s.data.all allowedIdChar <;> simp [h1, h2]

theorem check_id_slug_ok_or_error (s : String) :
    check_id_slug s = Except.ok () ∨
      check_id_slug s = Except.error (Error.invalidIdentifier s) := by
  unfold check_id_slug
  split
  · exact Or.inr rfl
  · split
    · exact Or.inl rfl
    · exact Or.inr rfl

theorem validateAll_ok_of_forall (l : List String)
    (h : ∀ id ∈ l, check_id_slug id = Except.ok ()) :
    validateAll l = Except.ok () := by
  induction l with
  | nil => rfl
  | cons a t ih =>
    have ha : check_id_slug a = Except.ok () := h a (by simp)
    simp only [validateAll, ha, Except.bind]
    exact ih fun id hid => h id (List.mem_cons_of_mem _ hid)

theorem validateAll_first_failure (pre rest : List String) (bad : String)
    (hpre : ∀ id ∈ pre, check_id_slug id = Except.ok ())
    (hbad : check_id_slug bad ≠ Except.ok ()) :
    validateAll (pre ++ bad :: rest) = Except.error (Error.invalidIdentifier bad) := by
  induction pre with
  | nil =>
    have hb := (check_id_slug_ok_or_error bad).resolve_left hbad
    simp only [List.nil_append, validateAll, hb, Except.bind]
  | cons a t ih =>
    have ha : check_id_slug a = Except.ok () := hpre a (by simp)
    simp only [List.cons_append, validateAll, ha, Except.bind]
    exact ih fun id hid => hpre id (List.mem_cons_of_mem _ hid)

/-- C1: for every non-empty, fully valid identifier list, `get_multiple_users`
and `get_multiple_versions` each produce exactly one GET request whose query
is the single parameter `ids` valued with the compact JSON array text of the
full identifier list in input order — never repeated query keys. -/
theorem c1_batch_single_ids_param (ids : List String) ( _hne : ids ≠ [])
    (hv : ∀ id ∈ ids, check_id_slug id = Except.ok ()) :
    get_multiple_users serdeJson ids =
      Except.ok ⟨Method.GET, ["users"], [("ids", to_string_strList ids)], none⟩ ∧
    get_multiple_versions serdeJson ids =
      Except.ok ⟨Method.GET, ["versions"], [("ids", to_string_strList ids)], none⟩ := by
  have h := validateAll_ok_of_forall ids hv
  constructor <;>
    simp [get_multiple_users, get_multiple_versions, h, serdeJson, Except.bind]

/-- Witness for C1 at the spec's own example: the batch `["A", "B"]` yields
the single query parameter `ids` with value the JSON text of the pair. -/
theorem c1_batch_single_ids_param_witness :
    get_multiple_users serdeJson ["A", "B"] =
      Except.ok ⟨Method.GET, ["users"], [("ids", "[\"A\",\"B\"]")], none⟩ ∧
    get_multiple_versions serdeJson ["A", "B"] =
      Except.ok ⟨Method.GET, ["versions"], [("ids", "[\"A\",\"B\"]")], none⟩ := by
  have h := c1_batch_single_ids_param ["A", "B"] (by decide) (by decide)
  have e : to_string_strList ["A", "B"] = "[\"A\",\"B\"]" := by decide
  rw [e] at h
  exact h

/-- C2: if a batch list has a first invalid identifier (everything before it
validates, it does not), then `get_multiple_users` and
`get_multiple_versions` return that identifier's `InvalidIdentifier` error
and no request is produced. -/
theorem c2_batch_first_invalid (pre rest : List String) (bad : String)
    (hpre : ∀ id ∈ pre, check_id_slug id = Except.ok ())
    (hbad : check_id_slug bad ≠ Except.ok ()) :
    get_multiple_users serdeJson (pre ++ bad :: rest) =
      Except.error (Error.invalidIdentifier bad) ∧
    get_multiple_versions serdeJson (pre ++ bad :: rest) =
      Except.error (Error.invalidIdentifier bad) := by
  have h := validateAll_first_failure pre rest bad hpre hbad
  constructor <;> simp [get_multiple_users, get_multiple_versions, h, Except.bind]

/-- Witness for C2: in the batch `["TEZXhE2U", "a/b", "7Azq6eD8"]` the first
invalid identifier is `a/b`, and both batch calls fail with exactly its
error. -/
theorem c2_batch_first_invalid_witness :
    get_multiple_users serdeJson ["TEZXhE2U", "a/b", "7Azq6eD8"] =
      Except.error (Error.invalidIdentifier "a/b") ∧
    get_multiple_versions serdeJson ["TEZXhE2U", "a/b", "7Azq6eD8"] =
      Except.error (Error.invalidIdentifier "a/b") := by
  have h := c2_batch_first_invalid ["TEZXhE2U"] ["7Azq6eD8"] "a/b" (by decide) (by decide)
  simpa using h

/-- C3: for every combination of present and absent filters, the query built
by `list_versions_filtered` contains exactly the present filters — a present
`loaders` or `game_versions` list under its own name with its compact JSON
array text as value, a present `featured` boolean as the JSON text `true` or
`false` — and each absent filter contributes no parameter at all. -/
theorem c3_filtered_query_exact (p : String) (l g : Option (List String))
    (f : Option Bool) (hp : check_id_slug p = Except.ok ()) :
    list_versions_filtered serdeJson p l g f =
      Except.ok ⟨Method.GET, ["project", p, "version"],
        (Option.elim l [] fun x => [("loaders", to_string_strList x)]) ++
        (Option.elim g [] fun x => [("game_versions", to_string_strList x)]) ++
        (Option.elim f [] fun x => [("featured", to_string_bool x)]), none⟩ := by
  cases l <;> cases g <;> cases f <;>
    simp [list_versions_filtered, pushFilter, serdeJson, hp, Option.elim, Except.bind]

/-- Witness for C3 at a mixed filter set: `loaders` present, `game_versions`
absent, `featured` present. -/
theorem c3_filtered_query_exact_witness :
    list_versions_filtered serdeJson "AANobbMI" (some ["forge"]) none (some true) =
      Except.ok ⟨Method.GET, ["project", "AANobbMI", "version"],
        [("loaders", "[\"forge\"]"), ("featured", "true")], none⟩ := by
  have h := c3_filtered_query_exact "AANobbMI" (some ["forge"]) none (some true) (by decide)
  rw [h]
  decide

/-- C4: every single-identifier operation returns the `InvalidIdentifier`
error of its identifier when validation fails, producing no request to
dispatch. -/
theorem c4_single_id_validation (id : String)
    (h : check_id_slug id ≠ Except.ok ()) :
    get_user id = Except.error (Error.invalidIdentifier id) ∧
    list_projects id = Except.error (Error.invalidIdentifier id) ∧
    get_notifications id = Except.error (Error.invalidIdentifier id) ∧
    followed_projects id = Except.error (Error.invalidIdentifier id) ∧
    list_versions id = Except.error (Error.invalidIdentifier id) ∧
    get_version id = Except.error (Error.invalidIdentifier id) := by
  have he := (check_id_slug_ok_or_error id).resolve_left h
  refine ⟨?_, ?_, ?_, ?_, ?_, ?_⟩ <;>
    simp [get_user, list_projects, get_notifications, followed_projects,
      list_versions, get_version, he, Except.bind]

/-- Witness for C4 at the invalid identifier `a/b`. -/
theorem c4_single_id_validation_witness :
    get_user "a/b" = Except.error (Error.invalidIdentifier "a/b") ∧
    list_projects "a/b" = Except.error (Error.invalidIdentifier "a/b") ∧
    get_notifications "a/b" = Except.error (Error.invalidIdentifier "a/b") ∧
    followed_projects "a/b" = Except.error (Error.invalidIdentifier "a/b") ∧
    list_versions "a/b" = Except.error (Error.invalidIdentifier "a/b") ∧
    get_version "a/b" = Except.error (Error.invalidIdentifier "a/b") :=
  c4_single_id_validation "a/b" (by decide)

/-- C5: the identifier validator accepts exactly the non-empty strings all
of whose characters are alphanumeric or in the allowed punctuation set, and
every rejection is an `InvalidIdentifier` error carrying the offending
string. -/
theorem c5_validator_characterization (s : String) :
    (check_id_slug s = Except.ok () ↔ (¬ s.isEmpty ∧ ∀ c ∈ s.data, allowedIdChar c)) ∧
    (check_id_slug s = Except.ok () ∨
      check_id_slug s = Except.error (Error.invalidIdentifier s)) :=
  ⟨check_id_slug_ok_iff s, check_id_slug_ok_or_error s⟩

/-- Witness for C5: a string with a disallowed character (`/`) is rejected
with the `InvalidIdentifier` error carrying it, by the characterization. -/
theorem c5_validator_characterization_witness :
    check_id_slug "a/b" = Except.error (Error.invalidIdentifier "a/b") := by
  have h := c5_validator_characterization "a/b"
  rcases h.2 with hok | herr
  · exfalso
    have := h.1.mp hok
    revert this
    decide
  · exact herr

/-- C6: the query construction of `list_versions_filtered` is a
deterministic function of its inputs — any two runs on the same input that
produce requests produce identical query sequences (indeed identical
requests). -/
theorem c6_filtered_query_deterministic (p : String) (l g : Option (List String))
    (f : Option Bool) (r1 r2 : Request)
    (h1 : list_versions_filtered serdeJson p l g f = Except.ok r1)
    (h2 : list_versions_filtered serdeJson p l g f = Except.ok r2) :
    r1.query = r2.query ∧ r1 = r2 := by
  have h := h1.symm.trans h2
  have hr : r1 = r2 := by injection h
  exact ⟨by rw [hr], hr⟩

/-- Witness for C6 at a concrete filtered call, run twice. -/
theorem c6_filtered_query_deterministic_witness :
    (⟨Method.GET, ["project", "AANobbMI", "version"],
        [("loaders", "[\"forge\"]")], none⟩ : Request).query =
      (⟨Method.GET, ["project", "AANobbMI", "version"],
        [("loaders", "[\"forge\"]")], none⟩ : Request).query :=
  (c6_filtered_query_deterministic "AANobbMI" (some ["forge"]) none none
    ⟨Method.GET, ["project", "AANobbMI", "version"], [("loaders", "[\"forge\"]")], none⟩
    ⟨Method.GET, ["project", "AANobbMI", "version"], [("loaders", "[\"forge\"]")], none⟩
    (by decide) (by decide)).1

/-- Counterexample to C7 as stated: `get_current_user` is a resource call,
yet it supplies the single-segment path `["user"]`, which matches neither
`/collection/{id}` nor `/collection/{id}/{subcollection}`. -/
theorem c7_route_grammar_counterexample :
    get_current_user = Except.ok ⟨Method.GET, ["user"], [], none⟩ ∧
    ¬ matchesFixedRouteGrammar ["user"] := by
  refine ⟨rfl, ?_⟩
  unfold matchesFixedRouteGrammar
  decide

/-- C7 amended: every resource call supplies its path as an ordered list of
separate segments matching `/collection`, `/collection/{id}`, or
`/collection/{id}/{subcollection}`, with each caller-supplied identifier
occupying exactly one whole segment and segments never concatenated. -/
theorem c7_route_segments_amended (uid pid vid iid rt it b : String)
    (ids : List String)
    (hu : check_id_slug uid = Except.ok ())
    (hp : check_id_slug pid = Except.ok ())
    (hv : check_id_slug vid = Except.ok ())
    (hi : check_id_slug iid = Except.ok ())
    (hids : ∀ id ∈ ids, check_id_slug id = Except.ok ()) :
    (get_user uid = Except.ok ⟨Method.GET, ["user", uid], [], none⟩ ∧
      wholeSegmentRoute uid ["user", uid]) ∧
    (get_current_user = Except.ok ⟨Method.GET, ["user"], [], none⟩ ∧
      matchesRouteGrammarWithBare ["user"]) ∧
    ((get_multiple_users serdeJson ids).map Request.path = Except.ok ["users"] ∧
      matchesRouteGrammarWithBare ["users"]) ∧
    (list_projects uid = Except.ok ⟨Method.GET, ["user", uid, "projects"], [], none⟩ ∧
      wholeSegmentRoute uid ["user", uid, "projects"]) ∧
    (get_notifications uid =
        Except.ok ⟨Method.GET, ["user", uid, "notifications"], [], none⟩ ∧
      wholeSegmentRoute uid ["user", uid, "notifications"]) ∧
    (followed_projects uid = Except.ok ⟨Method.GET, ["user", uid, "follows"], [], none⟩ ∧
      wholeSegmentRoute uid ["user", uid, "follows"]) ∧
    ((submit_report rt iid it b).map Request.path = Except.ok ["report"] ∧
      matchesRouteGrammarWithBare ["report"]) ∧
    (list_versions pid = Except.ok ⟨Method.GET, ["project", pid, "version"], [], none⟩ ∧
      wholeSegmentRoute pid ["project", pid, "version"]) ∧
    ((list_versions_filtered serdeJson pid none none none).map Request.path =
      Except.ok ["project", pid, "version"]) ∧
    (get_version vid = Except.ok ⟨Method.GET, ["version", vid], [], none⟩ ∧
      wholeSegmentRoute vid ["version", vid]) ∧
    ((get_multiple_versions serdeJson ids).map Request.path = Except.ok ["versions"] ∧
      matchesRouteGrammarWithBare ["versions"]) := by
  have hval := validateAll_ok_of_forall ids hids
  refine ⟨⟨?_, ?_⟩, ⟨rfl, ?_⟩, ⟨?_, ?_⟩, ⟨?_, ?_⟩, ⟨?_, ?_⟩, ⟨?_, ?_⟩,
    ⟨?_, ?_⟩, ⟨?_, ?_⟩, ?_, ⟨?_, ?_⟩, ⟨?_, ?_⟩⟩
  · simp [get_user, hu, Except.bind]
  · exact Or.inl ⟨"user", rfl⟩
  · unfold matchesRouteGrammarWithBare
    exact Or.inl rfl
  · simp [get_multiple_users, hval, serdeJson, Except.bind, Except.map]
  · unfold matchesRouteGrammarWithBare
    exact Or.inl rfl
  · simp [list_projects, hu, Except.bind]
  · exact Or.inr ⟨"user", "projects", rfl⟩
  · simp [get_notifications, hu, Except.bind]
  · exact Or.inr ⟨"user", "notifications", rfl⟩
  · simp [followed_projects, hu, Except.bind]
  · exact Or.inr ⟨"user", "follows", rfl⟩
  · simp [submit_report, hi, Except.bind, Except.map]
  · unfold matchesRouteGrammarWithBare
    exact Or.inl rfl
  · simp [list_versions, hp, Except.bind]
  · exact Or.inr ⟨"project", "version", rfl⟩
  · simp [list_versions_filtered, pushFilter, hp, Except.bind, Except.map]
  · simp [get_version, hv, Except.bind]
  · exact Or.inl ⟨"version", rfl⟩
  · simp [get_multiple_versions, hval, serdeJson, Except.bind, Except.map]
  · unfold matchesRouteGrammarWithBare
    exact Or.inl rfl

/-- Witness for the amended C7 at concrete identifiers. -/
theorem c7_route_segments_amended_witness :
    get_user "TEZXhE2U" = Except.ok ⟨Method.GET, ["user", "TEZXhE2U"], [], none⟩ ∧
    wholeSegmentRoute "TEZXhE2U" ["user", "TEZXhE2U"] :=
  (c7_route_segments_amended "TEZXhE2U" "AANobbMI" "xuWxRZPd" "XXXXXXXX"
    "spam" "user" "report-text" ["7Azq6eD8"]
    (by decide) (by decide) (by decide) (by decide) (by decide)).1

/-- C8: whenever the serializer fails on the value an operation serializes,
`list_versions_filtered`, `get_multiple_users` and `get_multiple_versions`
return exactly that failure as a `SerializationError` and produce no
request — the error is never swallowed and no default is substituted. -/
theorem c8_serialization_error_propagates (ser : Serializer) (p : String)
    (l ids : List String) (e e2 : String)
    (hp : check_id_slug p = Except.ok ())
    (hl : ser.strList l = Except.error e)
    (hids : ∀ id ∈ ids, check_id_slug id = Except.ok ())
    (hie : ser.strList ids = Except.error e2) :
    list_versions_filtered ser p (some l) none none =
      Except.error (Error.serializationError e) ∧
    get_multiple_users ser ids = Except.error (Error.serializationError e2) ∧
    get_multiple_versions ser ids = Except.error (Error.serializationError e2) := by
  have hval := validateAll_ok_of_forall ids hids
  refine ⟨?_, ?_, ?_⟩ <;>
    simp [list_versions_filtered, get_multiple_users, get_multiple_versions,
      pushFilter, hp, hl, hval, hie, Except.bind]

/-- Witness for C8 with the always-failing serializer. -/
theorem c8_serialization_error_propagates_witness :
    list_versions_filtered failingSerializer "AANobbMI" (some ["forge"]) none none =
      Except.error (Error.serializationError "strList failure") ∧
    get_multiple_users failingSerializer ["7Azq6eD8"] =
      Except.error (Error.serializationError "strList failure") ∧
    get_multiple_versions failingSerializer ["7Azq6eD8"] =
      Except.error (Error.serializationError "strList failure") :=
  c8_serialization_error_propagates failingSerializer "AANobbMI" ["forge"]
    ["7Azq6eD8"] "strList failure" "strList failure"
    (by decide) rfl (by decide) rfl

/-- C9: with all three filters absent, `list_versions_filtered` builds
exactly the request of `list_versions`: same GET, same path segments
`["project", project_id, "version"]`, empty query, so the two operations are
observably equivalent under the same transport. -/
theorem c9_unfiltered_refines_list_versions (p : String)
    (hp : check_id_slug p = Except.ok ()) :
    list_versions_filtered serdeJson p none none none = list_versions p ∧
    list_versions p = Except.ok ⟨Method.GET, ["project", p, "version"], [], none⟩ := by
  constructor <;>
    simp [list_versions_filtered, list_versions, pushFilter, hp, Except.bind]

/-- Witness for C9 at the project identifier `AANobbMI`. -/
theorem c9_unfiltered_refines_list_versions_witness :
    list_versions_filtered serdeJson "AANobbMI" none none none =
      list_versions "AANobbMI" ∧
    list_versions "AANobbMI" =
      Except.ok ⟨Method.GET, ["project", "AANobbMI", "version"], [], none⟩ :=
  c9_unfiltered_refines_list_versions "AANobbMI" (by decide)

/-- C10: the empty batch is not an error: validation is vacuous and both
batch calls still produce one GET request whose query carries `ids` with the
JSON text `[]` — the parameter is not omitted. -/
theorem c10_empty_batch_sends_empty_array :
    get_multiple_users serdeJson [] =
      Except.ok ⟨Method.GET, ["users"], [("ids", "[]")], none⟩ ∧
    get_multiple_versions serdeJson [] =
      Except.ok ⟨Method.GET, ["versions"], [("ids", "[]")], none⟩ :=
  ⟨rfl, rfl⟩

end Ferinth
